import Mathlib

/-!
Shallow embedding of the real-time copy-trade synchronization client of the
metamon repository, as implemented in
`src/frontend/src/components/layout/Navbar.tsx` (two `useCopyTrades` hook
variants: a Privy-wallet version and a wagmi version) and
`src/frontend/src/hooks/use-websocket.ts` (`useWebSocket`).

Conventions of the embedding:
* React `useState` values and `useRef` cells become fields of an explicit
  state record; each handler or callback becomes a pure state transformer.
* The WebSocket transport is modelled by its `readyState` plus an append-only
  log `sent` of frames actually written to the wire; `ws.send` appends to it.
* JavaScript truthiness of optional strings (`undefined` and `""` are falsy)
  is modelled by `truthy`.
* Timers become fields: `pingTimer : Bool` (heartbeat interval active) and
  `reconnectTimer : Option ℚ` (a scheduled reconnection with its delay in
  milliseconds).  `ws.close()` fires the socket's `close` event
  asynchronously with the installed handler still attached; the flag
  `closeEventPending` records such a pending event and `fireCloseEvent`
  delivers it.
-/

/-- `WebSocket.readyState` values. -/
inductive ReadyState where
  | CONNECTING
  | OPEN
  | CLOSING
  | CLOSED
deriving Repr, DecidableEq

/-- A transport handle: just its `readyState` (the URL plays no role in the
claims). -/
structure WS where
  readyState : ReadyState
deriving Repr, DecidableEq

/-- The `PendingCopyTrade` interface of `Navbar.tsx` (identical in both hook
variants). -/
structure PendingCopyTrade where
  id : String
  user_id : String
  copy_config_id : String
  trader_address : String
  market_id : String
  market_title : String
  market_slug : String
  event_slug : String
  side : String
  size : String
  price : String
  original_trade_id : String
  timestamp : Nat
  created_at : String
  status : String
deriving Repr, DecidableEq

/-- The inbound `CopyTradeMessage` discriminated union: `type` plus the
optional payload fields each case reads. -/
inductive CopyTradeMessage where
  | connected
  | heartbeat
  | pong
  | pending_trades (trades : Option (List PendingCopyTrade))
  | new_copy_trade (trade : Option PendingCopyTrade)
  | trade_status (trade_id : Option String) (status : Option String)
deriving Repr, DecidableEq

/-- Outbound frames (`sendMessage` payloads). -/
inductive OutboundMessage where
  | ping
  | execute_trade (trade_id : String) (tx_hash : String)
  | skip_trade (trade_id : String)
  | get_pending
deriving Repr, DecidableEq

/-- JavaScript truthiness for an optional string: `undefined` and `""` are
falsy, every other string is truthy. -/
def truthy : Option String → Bool
  | none => false
  | some s => !(s == "")

/-- The `ws.onmessage` switch of `useCopyTrades` (identical in the Privy and
wagmi variants), restricted to its effect on the `pendingTrades` store.

* `pending_trades`: `setPendingTrades(message.trades.filter(t => t.status === "pending"))`
  when `message.trades` is present (an array, even empty, is truthy).
* `new_copy_trade`: `setPendingTrades(prev => [...prev, message.trade!])`
  when `message.trade` is present.
* `trade_status`: for status `"executed"` or `"skipped"`,
  `setPendingTrades(prev => prev.filter(t => t.id !== message.trade_id))`;
  a string `t.id` never equals an absent (`undefined`) `trade_id`. -/
def handleMessage (store : List PendingCopyTrade) : CopyTradeMessage → List PendingCopyTrade
  | .connected => store
  | .heartbeat => store
  | .pong => store
  | .pending_trades trades =>
      match trades with
      | some ts => ts.filter (fun t => t.status == "pending")
      | none => store
  | .new_copy_trade trade =>
      match trade with
      | some t => store ++ [t]
      | none => store
  | .trade_status trade_id status =>
      if status == some "executed" then
        store.filter (fun t => !(some t.id == trade_id))
      else if status == some "skipped" then
        store.filter (fun t => !(some t.id == trade_id))
      else store

/-- Processing a sequence of inbound frames in arrival order (dispatch is
synchronous and ordered). -/
def handleMessages (store : List PendingCopyTrade) (msgs : List CopyTradeMessage) :
    List PendingCopyTrade :=
  msgs.foldl handleMessage store

/-- State of the Privy-variant `useCopyTrades` hook (Navbar.tsx lines
289–531): auth inputs, the `wsRef`/timer refs, the `useState` cells and the
wire log. -/
structure CopyTradesState where
  token : Option String
  isAuthenticated : Bool
  wsRef : Option WS
  reconnectTimer : Option ℚ
  pingTimer : Bool
  closeEventPending : Bool
  isConnected : Bool
  pendingTrades : List PendingCopyTrade
  executingTradeId : Option String
  isExecuting : Bool
  needsApproval : Bool
  isApproving : Bool
  sent : List OutboundMessage
  socketsCreated : Nat
deriving Repr, DecidableEq

namespace CopyTradesState

/-- `sendMessage`: write the frame only when `wsRef.current?.readyState ===
WebSocket.OPEN`; otherwise silently do nothing. -/
def sendMessage (s : CopyTradesState) (m : OutboundMessage) : CopyTradesState :=
  match s.wsRef with
  | some ws => if ws.readyState = .OPEN then { s with sent := s.sent ++ [m] } else s
  | none => s

/-- `connect()`: return early when the token is missing/unauthenticated or
the current socket's `readyState` is `OPEN` (only `OPEN` is checked —
`undefined` and `CONNECTING` fall through); otherwise construct a new
`WebSocket` (initially `CONNECTING`) and overwrite `wsRef` with it.
`socketsCreated` counts `new WebSocket(...)` constructions. -/
def connect (s : CopyTradesState) : CopyTradesState :=
  if ¬ truthy s.token ∨ s.isAuthenticated = false then s
  else if s.wsRef.map WS.readyState = some .OPEN then s
  else { s with wsRef := some ⟨.CONNECTING⟩, socketsCreated := s.socketsCreated + 1 }

/-- `ws.onopen`: set connected and start the 25 s ping interval. -/
def onopen (s : CopyTradesState) : CopyTradesState :=
  { s with isConnected := true, pingTimer := true }

/-- `ws.onclose`: set disconnected, clear the ping interval and
unconditionally schedule a reconnect via `setTimeout(connect, 3000)` —
there is no explicit-disconnect guard and no attempt counter. -/
def onclose (s : CopyTradesState) : CopyTradesState :=
  { s with isConnected := false, pingTimer := false, reconnectTimer := some 3000 }

/-- `disconnect()`: `clearTimeout(reconnectTimeoutRef)`,
`clearInterval(pingIntervalRef)`, then `ws.close()` (which leaves the
socket's close event pending, its handler still attached) and
`wsRef.current = null`, finally `setIsConnected(false)`. -/
def disconnect (s : CopyTradesState) : CopyTradesState :=
  let s1 := { s with reconnectTimer := none, pingTimer := false }
  let s2 :=
    match s1.wsRef with
    | some _ => { s1 with wsRef := none, closeEventPending := true }
    | none => s1
  { s2 with isConnected := false }

/-- Delivery of a pending close event: runs the `onclose` handler installed
at connect time. -/
def fireCloseEvent (s : CopyTradesState) : CopyTradesState :=
  if s.closeEventPending then onclose { s with closeEventPending := false } else s

/-- The scheduled reconnect timer firing: `connect()` is invoked. -/
def reconnectTimerFire (s : CopyTradesState) : CopyTradesState :=
  match s.reconnectTimer with
  | some _ => connect { s with reconnectTimer := none }
  | none => s

/-- `ws.onmessage` restricted to state: the switch only mutates
`pendingTrades` (plus toasts/callbacks, which carry no state). -/
def onmessage (s : CopyTradesState) (m : CopyTradeMessage) : CopyTradesState :=
  { s with pendingTrades := handleMessage s.pendingTrades m }

/-- `skipTrade(tradeId)`: send `skip_trade` (dropped unless the transport is
open) and filter the id out of the store unconditionally. -/
def skipTrade (s : CopyTradesState) (tradeId : String) : CopyTradesState :=
  let s1 := s.sendMessage (.skip_trade tradeId)
  { s1 with pendingTrades := s1.pendingTrades.filter (fun t => !(t.id == tradeId)) }

/-- `executeTradeOnChain(trade)` (Privy variant, lines 463–505).
`walletConnected` abbreviates the guard `isWalletConnected && address &&
wallet`; when it fails the function only toasts and returns.  Otherwise it
sets the in-flight marker and `isExecuting`, sends
`{type:"execute_trade", trade_id, tx_hash:"demo-tx"}`, filters the id out of
the store, clears the marker, and finally clears `isExecuting`.  There is no
check of the item's status or of the current in-flight marker. -/
def executeTradeOnChain (walletConnected : Bool) (s : CopyTradesState)
    (trade : PendingCopyTrade) : CopyTradesState :=
  if walletConnected = false then s
  else
    let s1 := { s with executingTradeId := some trade.id, isExecuting := true }
    let s2 := s1.sendMessage (.execute_trade trade.id "demo-tx")
    let s3 := { s2 with
      pendingTrades := s2.pendingTrades.filter (fun t => !(t.id == trade.id)),
      executingTradeId := none }
    { s3 with isExecuting := false }

/-- `approveUsdcSpending(amount)` (Privy variant, lines 424–460): the
`amount` argument is never read.  After the wallet guard the body only
simulates an approval: `setIsApproving(true)`, a toast, a 1 s delay,
`setNeedsApproval(false)`, and finally `setIsApproving(false)`. -/
def approveUsdcSpending (walletConnected : Bool) (amount : String)
    (s : CopyTradesState) : CopyTradesState :=
  if walletConnected = false then s
  else
    let _ := amount
    { s with needsApproval := false, isApproving := false }

end CopyTradesState

/-- `parseUnits(value, decimals)` of viem for a decimal-integer string:
the integer scaled by `10 ^ decimals`. -/
def parseUnits (value : Nat) (decimals : Nat) : Nat := value * 10 ^ decimals

/-- USDC contract address on Polygon (Navbar.tsx). -/
def USDC_CONTRACT : String := "0x2791Bca1f2de4661ED88A30C99A7a9449Aa84174"

/-- Polymarket CLOB contract address on Polygon (Navbar.tsx). -/
def CLOB_CONTRACT : String := "0x4D97DCd97eC945f40cF65F87097ACe5EA0476045"

/-- One `writeContract` approval request as issued by `approveUsdc`. -/
structure ApprovalCall where
  contract : String
  functionName : String
  spender : String
  amount : Nat
deriving Repr, DecidableEq

/-- State of the wagmi-variant `useCopyTrades` hook (Navbar.tsx lines
643–919): the `useState` cells, the wagmi write/receipt observables
(`tradeHash`, `tradeSuccess`), the wire log and the approval-call log. -/
structure WagmiCopyTradesState where
  wsRef : Option WS
  pendingTrades : List PendingCopyTrade
  executingTradeId : Option String
  tradeHash : Option String
  tradeSuccess : Bool
  needsApproval : Bool
  sent : List OutboundMessage
  approvalCalls : List ApprovalCall
deriving Repr, DecidableEq

namespace WagmiCopyTradesState

/-- `sendMessage` of the wagmi variant (same body as the Privy variant). -/
def sendMessage (s : WagmiCopyTradesState) (m : OutboundMessage) : WagmiCopyTradesState :=
  match s.wsRef with
  | some ws => if ws.readyState = .OPEN then { s with sent := s.sent ++ [m] } else s
  | none => s

/-- The trade-success `useEffect` (lines 685–699): when
`tradeSuccess && executingTradeId && tradeHash` (JS truthiness), send
`{type:"execute_trade", trade_id: executingTradeId, tx_hash: tradeHash}`,
fire the callback, clear the in-flight marker, and filter the id out of the
store. -/
def tradeSuccessEffect (s : WagmiCopyTradesState) : WagmiCopyTradesState :=
  match s.executingTradeId, s.tradeHash with
  | some tid, some h =>
      if s.tradeSuccess && !(tid == "") && !(h == "") then
        let s1 := s.sendMessage (.execute_trade tid h)
        let s2 := { s1 with executingTradeId := none }
        { s2 with pendingTrades := s2.pendingTrades.filter (fun t => !(t.id == tid)) }
      else s
  | _, _ => s

/-- `approveUsdcSpending(amount)` (wagmi variant, lines 812–841): the
`amount` argument is never read.  After the wallet guard
(`isWalletConnected && address`, abbreviated `walletConnected`) it always
requests `approve(CLOB_CONTRACT, parseUnits("1000000", 6))` on the USDC
contract and sets `needsApproval` to true. -/
def approveUsdcSpending (walletConnected : Bool) (amount : String)
    (s : WagmiCopyTradesState) : WagmiCopyTradesState :=
  if walletConnected = false then s
  else
    let _ := amount
    let approveAmount := parseUnits 1000000 6
    { s with
      approvalCalls := s.approvalCalls ++
        [⟨USDC_CONTRACT, "approve", CLOB_CONTRACT, approveAmount⟩],
      needsApproval := true }

/-- `executeTradeOnChain(trade)` (wagmi variant, lines 844–893): after the
wallet guard, set the in-flight marker, send
`{type:"execute_trade", trade_id, tx_hash:"demo-tx"}`, filter the id out of
the store and clear the marker.  No status or re-entrancy check. -/
def executeTradeOnChain (walletConnected : Bool) (s : WagmiCopyTradesState)
    (trade : PendingCopyTrade) : WagmiCopyTradesState :=
  if walletConnected = false then s
  else
    let s1 := { s with executingTradeId := some trade.id }
    let s2 := s1.sendMessage (.execute_trade trade.id "demo-tx")
    { s2 with
      pendingTrades := s2.pendingTrades.filter (fun t => !(t.id == trade.id)),
      executingTradeId := none }

end WagmiCopyTradesState

/-- `maxReconnectAttempts` of `useWebSocket` (use-websocket.ts line 42). -/
def maxReconnectAttempts : Nat := 5

/-- The `ws.onclose` backoff of `useWebSocket` (use-websocket.ts lines
113–125), as the delay it schedules: when `reconnectAttempts <
maxReconnectAttempts`, a timer with delay
`Math.pow(2, reconnectAttempts) * 1000 + Math.random() * 1000` milliseconds
is scheduled (`u` is the `Math.random()` draw, `0 ≤ u < 1`); otherwise no
reconnection is scheduled. -/
def wsOncloseDelay (reconnectAttempts : Nat) (u : ℚ) : Option ℚ :=
  if reconnectAttempts < maxReconnectAttempts then
    some (2 ^ reconnectAttempts * 1000 + u * 1000)
  else none

/-! ## Concrete sample data for witnesses and counterexamples -/

/-- A concrete `PendingCopyTrade` with the given id, size and status. -/
def sampleTrade (id size status : String) : PendingCopyTrade :=
  { id := id, user_id := "u1", copy_config_id := "c1", trader_address := "0xAAA",
    market_id := "m1", market_title := "Market", market_slug := "market",
    event_slug := "event", side := "BUY", size := size, price := "0.5",
    original_trade_id := "orig1", timestamp := 1700000000, created_at := "2024-01-01",
    status := status }

/-- A concrete Privy-variant hook state: authenticated, transport `OPEN`,
trade `"T1"` in the store and locally marked as the currently executing
trade. -/
def sampleState : CopyTradesState :=
  { token := some "tok", isAuthenticated := true, wsRef := some ⟨.OPEN⟩,
    reconnectTimer := none, pingTimer := true, closeEventPending := false,
    isConnected := true, pendingTrades := [sampleTrade "T1" "5" "pending"],
    executingTradeId := some "T1", isExecuting := true, needsApproval := false,
    isApproving := false, sent := [], socketsCreated := 1 }

/-- A concrete hook state whose socket is still `CONNECTING`. -/
def connectingState : CopyTradesState :=
  { sampleState with
    wsRef := some ⟨.CONNECTING⟩
    isConnected := false
    pingTimer := false
    executingTradeId := none
    isExecuting := false }

/-- A concrete wagmi-variant hook state: transport `OPEN`, trade `"T1"` in
the store and in flight, receipt for hash `"0xabc"` confirmed. -/
def sampleWagmiState : WagmiCopyTradesState :=
  { wsRef := some ⟨.OPEN⟩, pendingTrades := [sampleTrade "T1" "5" "pending"],
    executingTradeId := some "T1", tradeHash := some "0xabc", tradeSuccess := true,
    needsApproval := false, sent := [], approvalCalls := [] }

/-! ## Claims -/

/-- C1: for every inbound `trade_status` frame whose status is `"executed"`
or `"skipped"` carrying trade_id `x`, after the handler runs the store has
no entry with id `x` — whether `x` was absent, Pending, or marked as the
currently executing trade (the marker is untouched); when `x` was absent the
handler is a benign no-op: store unchanged, no frame emitted, no error. -/
theorem trade_status_removes_id (s : CopyTradesState) (x st : String)
    (hst : st = "executed" ∨ st = "skipped") :
    (∀ t ∈ (s.onmessage (.trade_status (some x) (some st))).pendingTrades, t.id ≠ x) ∧
    ((∀ t ∈ s.pendingTrades, t.id ≠ x) →
      (s.onmessage (.trade_status (some x) (some st))).pendingTrades = s.pendingTrades) ∧
    (s.onmessage (.trade_status (some x) (some st))).executingTradeId = s.executingTradeId ∧
    (s.onmessage (.trade_status (some x) (some st))).sent = s.sent := by
  have hfil : handleMessage s.pendingTrades (.trade_status (some x) (some st)) =
      s.pendingTrades.filter (fun t => !(some t.id == some x)) := by
    rcases hst with h | h <;> subst h <;> simp [handleMessage]
  refine ⟨?_, ?_, rfl, rfl⟩
  · intro t ht
    simp only [CopyTradesState.onmessage, hfil, List.mem_filter] at ht
    simpa using ht.2
  · intro habs
    simp only [CopyTradesState.onmessage, hfil]
    rw [List.filter_eq_self.mpr]
    intro t ht
    simpa using habs t ht

/-- C1 witness: the theorem applied to a concrete state holding `"T1"` and a
`trade_status(executed)` frame for `"T1"`. -/
theorem trade_status_removes_id_witness :
    (∀ t ∈ (sampleState.onmessage
        (.trade_status (some "T1") (some "executed"))).pendingTrades, t.id ≠ "T1") ∧
    ((∀ t ∈ sampleState.pendingTrades, t.id ≠ "T1") →
      (sampleState.onmessage
        (.trade_status (some "T1") (some "executed"))).pendingTrades =
        sampleState.pendingTrades) ∧
    (sampleState.onmessage
      (.trade_status (some "T1") (some "executed"))).executingTradeId =
      sampleState.executingTradeId ∧
    (sampleState.onmessage (.trade_status (some "T1") (some "executed"))).sent =
      sampleState.sent :=
  trade_status_removes_id sampleState "T1" "executed" (Or.inl rfl)

/-- C2 counterexample: two `new_copy_trade` frames carrying the same id
`"T1"` (with different sizes) leave the store with two entries of id `"T1"`,
refuting "the store never contains two entries with the same id". -/
theorem new_copy_trade_duplicate_counterexample :
    ((handleMessages []
        [.new_copy_trade (some (sampleTrade "T1" "5" "pending")),
         .new_copy_trade (some (sampleTrade "T1" "7" "pending"))]).filter
      (fun t => t.id == "T1")).length = 2 := by decide

/-- C2 amended: the `new_copy_trade` handler appends each carried trade
unconditionally — after any sequence of such frames the store equals the
initial store followed by every carried trade in arrival order; an entry
already present keeps its position and fields, but a repeated id adds a
further entry rather than being ignored, so duplicate ids can occur. -/
theorem new_copy_trade_appends_all (store ts : List PendingCopyTrade) :
    handleMessages store (ts.map (fun t => .new_copy_trade (some t))) = store ++ ts := by
  induction ts generalizing store with
  | nil => simp [handleMessages]
  | cons t ts ih =>
      rw [List.map_cons]
      show handleMessages (handleMessage store (.new_copy_trade (some t)))
        (ts.map (fun t => .new_copy_trade (some t))) = store ++ t :: ts
      rw [show handleMessage store (.new_copy_trade (some t)) = store ++ [t] from rfl, ih]
      simp

/-- C9: a `pending_trades` frame replaces the whole store (independently of
its previous contents) with exactly the payload items whose `status` is
`"pending"`, preserving payload order; in particular a snapshot of two
pending items `[t1, t2]` leaves the store `[t1, t2]`. -/
theorem pending_trades_snapshot (store store2 trades : List PendingCopyTrade) :
    handleMessage store (.pending_trades (some trades)) =
      handleMessage store2 (.pending_trades (some trades)) ∧
    List.Sublist (handleMessage store (.pending_trades (some trades))) trades ∧
    (∀ t ∈ handleMessage store (.pending_trades (some trades)), t.status = "pending") ∧
    (∀ t ∈ trades, t.status = "pending" →
      t ∈ handleMessage store (.pending_trades (some trades))) ∧
    ∀ t1 t2 : PendingCopyTrade, t1.status = "pending" → t2.status = "pending" →
      handleMessage store (.pending_trades (some [t1, t2])) = [t1, t2] := by
  refine ⟨rfl, List.filter_sublist _, ?_, ?_, ?_⟩
  · intro t ht
    have := (List.mem_filter.mp ht).2
    simpa using this
  · intro t ht hp
    exact List.mem_filter.mpr ⟨ht, by simpa using hp⟩
  · intro t1 t2 h1 h2
    show List.filter (fun t => t.status == "pending") [t1, t2] = [t1, t2]
    simp [List.filter_cons, h1, h2]

/-- C9 witness: the theorem applied to concrete stores and a two-item
pending snapshot. -/
theorem pending_trades_snapshot_witness :
    (handleMessage [] (.pending_trades (some
        [sampleTrade "T1" "5" "pending", sampleTrade "T2" "7" "pending"])) =
      handleMessage [sampleTrade "Z" "1" "pending"] (.pending_trades (some
        [sampleTrade "T1" "5" "pending", sampleTrade "T2" "7" "pending"]))) ∧
    List.Sublist (handleMessage [] (.pending_trades (some
        [sampleTrade "T1" "5" "pending", sampleTrade "T2" "7" "pending"])))
      [sampleTrade "T1" "5" "pending", sampleTrade "T2" "7" "pending"] ∧
    (∀ t ∈ handleMessage [] (.pending_trades (some
        [sampleTrade "T1" "5" "pending", sampleTrade "T2" "7" "pending"])),
      t.status = "pending") ∧
    (∀ t ∈ [sampleTrade "T1" "5" "pending", sampleTrade "T2" "7" "pending"],
      t.status = "pending" →
      t ∈ handleMessage [] (.pending_trades (some
        [sampleTrade "T1" "5" "pending", sampleTrade "T2" "7" "pending"]))) ∧
    ∀ t1 t2 : PendingCopyTrade, t1.status = "pending" → t2.status = "pending" →
      handleMessage [] (.pending_trades (some [t1, t2])) = [t1, t2] :=
  pending_trades_snapshot [] [sampleTrade "Z" "1" "pending"]
    [sampleTrade "T1" "5" "pending", sampleTrade "T2" "7" "pending"]


/-- C3: in the wagmi variant, when the wallet flow's trade receipt confirms
(`tradeSuccess`) with transaction hash `h` while trade id `tid` is in
flight and the transport is open, the effect sends
`{type:"execute_trade", trade_id: tid, tx_hash: h}` carrying exactly the
signer-returned hash, removes the trade from the store, and clears the
in-flight marker. -/
theorem trade_success_sends_hash_and_removes (s : WagmiCopyTradesState) (tid h : String)
    (h1 : s.tradeSuccess = true) (h2 : s.executingTradeId = some tid)
    (h3 : s.tradeHash = some h) (h4 : tid ≠ "") (h5 : h ≠ "")
    (h6 : s.wsRef = some ⟨.OPEN⟩) :
    (s.tradeSuccessEffect).sent = s.sent ++ [.execute_trade tid h] ∧
    (∀ t ∈ (s.tradeSuccessEffect).pendingTrades, t.id ≠ tid) ∧
    (s.tradeSuccessEffect).executingTradeId = none := by
  have h4' : (tid == "") = false := beq_eq_false_iff_ne.mpr h4
  have h5' : (h == "") = false := beq_eq_false_iff_ne.mpr h5
  obtain ⟨ws, store, marker, hash, succ, napp, sent, acalls⟩ := s
  dsimp only at h1 h2 h3 h6 ⊢
  subst h1 h2 h3 h6
  refine ⟨?_, ?_, ?_⟩
  · simp [WagmiCopyTradesState.tradeSuccessEffect, WagmiCopyTradesState.sendMessage,
      h4', h5']
  · intro t ht
    simp [WagmiCopyTradesState.tradeSuccessEffect, WagmiCopyTradesState.sendMessage,
      h4', h5', List.mem_filter] at ht
    exact ht.2
  · simp [WagmiCopyTradesState.tradeSuccessEffect, WagmiCopyTradesState.sendMessage,
      h4', h5']

/-- C3 witness: the theorem applied to the concrete wagmi state in which
`"T1"` is in flight and the receipt for `"0xabc"` has confirmed. -/
theorem trade_success_sends_hash_and_removes_witness :
    (sampleWagmiState.tradeSuccessEffect).sent =
      sampleWagmiState.sent ++ [.execute_trade "T1" "0xabc"] ∧
    (∀ t ∈ (sampleWagmiState.tradeSuccessEffect).pendingTrades, t.id ≠ "T1") ∧
    (sampleWagmiState.tradeSuccessEffect).executingTradeId = none :=
  trade_success_sends_hash_and_removes sampleWagmiState "T1" "0xabc"
    rfl rfl rfl (by decide) (by decide) rfl

/-- C4 counterexample: in a concrete state whose in-flight marker already
equals `"T1"`, invoking `executeTradeOnChain` again for `"T1"` is not a
no-op — it emits a further `execute_trade` frame and mutates the store and
the marker, refuting the claimed re-entrancy rejection. -/
theorem execute_reentrancy_counterexample :
    sampleState.executingTradeId = some "T1" ∧
    (CopyTradesState.executeTradeOnChain true sampleState
      (sampleTrade "T1" "5" "pending")).sent =
      [.execute_trade "T1" "demo-tx"] ∧
    (CopyTradesState.executeTradeOnChain true sampleState
      (sampleTrade "T1" "5" "pending")).pendingTrades = [] ∧
    (CopyTradesState.executeTradeOnChain true sampleState
      (sampleTrade "T1" "5" "pending")).executingTradeId = none := by decide

/-- C4 amended: `executeTradeOnChain` performs no Pending-status or
re-entrancy check.  Whenever the wallet guard passes (and the transport is
open) it sends the `execute_trade` frame, removes the id from the store and
clears the in-flight marker — even when the in-flight marker already equals
that id; only a failing wallet guard makes the call a no-op. -/
theorem executeTradeOnChain_no_reentrancy_guard (s : CopyTradesState)
    (trade : PendingCopyTrade) (hopen : s.wsRef = some ⟨.OPEN⟩) :
    (CopyTradesState.executeTradeOnChain true s trade).sent =
      s.sent ++ [.execute_trade trade.id "demo-tx"] ∧
    (∀ t ∈ (CopyTradesState.executeTradeOnChain true s trade).pendingTrades,
      t.id ≠ trade.id) ∧
    (CopyTradesState.executeTradeOnChain true s trade).executingTradeId = none ∧
    CopyTradesState.executeTradeOnChain false s trade = s := by
  have heff : CopyTradesState.executeTradeOnChain true s trade =
      { s with
        sent := s.sent ++ [.execute_trade trade.id "demo-tx"]
        executingTradeId := none
        isExecuting := false
        pendingTrades := s.pendingTrades.filter (fun t => !(t.id == trade.id)) } := by
    unfold CopyTradesState.executeTradeOnChain
    simp only [Bool.true_eq_false, if_neg, ite_false]
    unfold CopyTradesState.sendMessage
    rw [hopen]
    rfl
  refine ⟨by rw [heff], ?_, by rw [heff], by unfold CopyTradesState.executeTradeOnChain; rfl⟩
  intro t ht
  rw [heff] at ht
  have := (List.mem_filter.mp ht).2
  simpa using this

/-- C4 amended witness: the amended theorem applied to the concrete state in
which `"T1"` is already marked in flight. -/
theorem executeTradeOnChain_no_reentrancy_guard_witness :
    (CopyTradesState.executeTradeOnChain true sampleState
      (sampleTrade "T1" "5" "pending")).sent =
      sampleState.sent ++ [.execute_trade (sampleTrade "T1" "5" "pending").id "demo-tx"] ∧
    (∀ t ∈ (CopyTradesState.executeTradeOnChain true sampleState
      (sampleTrade "T1" "5" "pending")).pendingTrades,
      t.id ≠ (sampleTrade "T1" "5" "pending").id) ∧
    (CopyTradesState.executeTradeOnChain true sampleState
      (sampleTrade "T1" "5" "pending")).executingTradeId = none ∧
    CopyTradesState.executeTradeOnChain false sampleState
      (sampleTrade "T1" "5" "pending") = sampleState :=
  executeTradeOnChain_no_reentrancy_guard sampleState (sampleTrade "T1" "5" "pending") rfl

/-- C5: `skipTrade(id)` with the transport open sends a `skip_trade` frame
and removes the id from the store immediately and unconditionally — and a
subsequent `trade_status` frame for the now-absent id (any status) leaves
the store unchanged, a safe no-op. -/
theorem skipTrade_removes_immediately (s : CopyTradesState) (tradeId : String)
    (hopen : s.wsRef = some ⟨.OPEN⟩) :
    (s.skipTrade tradeId).sent = s.sent ++ [.skip_trade tradeId] ∧
    (∀ t ∈ (s.skipTrade tradeId).pendingTrades, t.id ≠ tradeId) ∧
    ∀ st : String,
      ((s.skipTrade tradeId).onmessage
        (.trade_status (some tradeId) (some st))).pendingTrades =
      (s.skipTrade tradeId).pendingTrades := by
  have heff : s.skipTrade tradeId =
      { s with
        sent := s.sent ++ [.skip_trade tradeId]
        pendingTrades := s.pendingTrades.filter (fun t => !(t.id == tradeId)) } := by
    unfold CopyTradesState.skipTrade CopyTradesState.sendMessage
    rw [hopen]
    exact rfl
  have habsent : ∀ t ∈ (s.skipTrade tradeId).pendingTrades, t.id ≠ tradeId := by
    intro t ht
    rw [heff] at ht
    have := (List.mem_filter.mp ht).2
    simpa using this
  refine ⟨by rw [heff], habsent, ?_⟩
  intro st
  unfold CopyTradesState.onmessage
  by_cases he : st = "executed"
  · subst he
    simp only [handleMessage, show (some "executed" == some "executed") = true from rfl,
      if_pos]
    rw [List.filter_eq_self.mpr]
    intro t ht
    simpa using habsent t ht
  · by_cases hs : st = "skipped"
    · subst hs
      simp only [handleMessage, show (some "skipped" == some "executed") = false from rfl,
        show (some "skipped" == some "skipped") = true from rfl, if_pos, if_neg,
        Bool.false_eq_true, ite_false]
      rw [List.filter_eq_self.mpr]
      intro t ht
      simpa using habsent t ht
    · have h1 : (some st == some "executed") = false := by
        simp [he]
      have h2 : (some st == some "skipped") = false := by
        simp [hs]
      simp [handleMessage, h1, h2]

/-- C5 witness: the theorem applied to the concrete open-transport state
holding `"T1"`. -/
theorem skipTrade_removes_immediately_witness :
    (sampleState.skipTrade "T1").sent = sampleState.sent ++ [.skip_trade "T1"] ∧
    (∀ t ∈ (sampleState.skipTrade "T1").pendingTrades, t.id ≠ "T1") ∧
    ∀ st : String,
      ((sampleState.skipTrade "T1").onmessage
        (.trade_status (some "T1") (some st))).pendingTrades =
      (sampleState.skipTrade "T1").pendingTrades :=
  skipTrade_removes_immediately sampleState "T1" rfl

/-- C6 counterexample: with a live socket still `CONNECTING`, `connect()` is
not a no-op — it constructs a second transport (`socketsCreated` grows) and
overwrites the handle, refuting the claimed idempotence for the Connecting
state. -/
theorem connect_connecting_counterexample :
    connectingState.wsRef = some ⟨.CONNECTING⟩ ∧
    CopyTradesState.connect connectingState ≠ connectingState ∧
    (CopyTradesState.connect connectingState).socketsCreated =
      connectingState.socketsCreated + 1 := by decide

/-- C6 amended: `connect()` is a no-op only while the transport is `Open`
(and vacuously without a token or authentication); while the transport is
still `Connecting` it constructs a second transport and overwrites the
handle with it. -/
theorem connect_noop_only_when_open (s s' : CopyTradesState)
    (hopen : s.wsRef.map WS.readyState = some .OPEN)
    (htok : truthy s'.token = true) (hauth : s'.isAuthenticated = true)
    (hconn : s'.wsRef.map WS.readyState = some .CONNECTING) :
    CopyTradesState.connect s = s ∧
    (CopyTradesState.connect s').socketsCreated = s'.socketsCreated + 1 ∧
    (CopyTradesState.connect s').wsRef = some ⟨.CONNECTING⟩ := by
  refine ⟨?_, ?_, ?_⟩
  · unfold CopyTradesState.connect
    by_cases hc : ¬ truthy s.token = true ∨ s.isAuthenticated = false
    · rw [if_pos hc]
    · rw [if_neg hc, if_pos hopen]
  · unfold CopyTradesState.connect
    rw [if_neg (by simp [htok, hauth]), if_neg (by simp [hconn])]
  · unfold CopyTradesState.connect
    rw [if_neg (by simp [htok, hauth]), if_neg (by simp [hconn])]

/-- C6 amended witness: the theorem applied to the concrete Open state and
the concrete Connecting state. -/
theorem connect_noop_only_when_open_witness :
    CopyTradesState.connect sampleState = sampleState ∧
    (CopyTradesState.connect connectingState).socketsCreated =
      connectingState.socketsCreated + 1 ∧
    (CopyTradesState.connect connectingState).wsRef = some ⟨.CONNECTING⟩ :=
  connect_noop_only_when_open sampleState connectingState rfl rfl rfl rfl

/-- C7 counterexample: from the concrete connected state, `disconnect()`
does clear both timers, but delivering the close event of the socket it
closed schedules a fresh 3000 ms reconnection, and that timer firing
re-invokes `connect()`, constructing a new transport with no user call —
refuting "no autonomously scheduled task ever fires again" and "stays
Disconnected until connect() is invoked again". -/
theorem disconnect_close_reschedules_counterexample :
    (CopyTradesState.disconnect sampleState).reconnectTimer = none ∧
    (CopyTradesState.disconnect sampleState).pingTimer = false ∧
    (CopyTradesState.fireCloseEvent
      (CopyTradesState.disconnect sampleState)).reconnectTimer = some 3000 ∧
    (CopyTradesState.reconnectTimerFire (CopyTradesState.fireCloseEvent
      (CopyTradesState.disconnect sampleState))).socketsCreated =
      sampleState.socketsCreated + 1 := by decide

/-- C7 amended: `disconnect()` cancels the pending reconnection timer and
the heartbeat timer that exist at the call, clears the handle and leaves the
component disconnected — but the closed socket's `onclose` handler stays
attached, and when its close event fires it unconditionally schedules a new
3000 ms reconnection; the component does not stay Disconnected after an
explicit `disconnect()`. -/
theorem disconnect_cancels_timers_but_close_reschedules (s : CopyTradesState)
    (hws : s.wsRef ≠ none) :
    (CopyTradesState.disconnect s).reconnectTimer = none ∧
    (CopyTradesState.disconnect s).pingTimer = false ∧
    (CopyTradesState.disconnect s).wsRef = none ∧
    (CopyTradesState.disconnect s).isConnected = false ∧
    (CopyTradesState.fireCloseEvent (CopyTradesState.disconnect s)).reconnectTimer =
      some 3000 := by
  obtain ⟨tok, auth, ws, rt, pt, cep, ic, ptr, eid, ie, na, ia, snt, sc⟩ := s
  cases ws with
  | none => exact absurd rfl hws
  | some w => exact ⟨rfl, rfl, rfl, rfl, rfl⟩

/-- C7 amended witness: the theorem applied to the concrete connected
state. -/
theorem disconnect_cancels_timers_but_close_reschedules_witness :
    (CopyTradesState.disconnect sampleState).reconnectTimer = none ∧
    (CopyTradesState.disconnect sampleState).pingTimer = false ∧
    (CopyTradesState.disconnect sampleState).wsRef = none ∧
    (CopyTradesState.disconnect sampleState).isConnected = false ∧
    (CopyTradesState.fireCloseEvent
      (CopyTradesState.disconnect sampleState)).reconnectTimer = some 3000 :=
  disconnect_cancels_timers_but_close_reschedules sampleState (by decide)

/-- C8 counterexample: the copy-trades socket's `onclose` schedules a fixed
3000 ms reconnection on every close (it keeps no attempt counter at all);
with the repository's configured backoff constants (base 1000 ms,
jitterWindow 1000 ms, from use-websocket.ts) this delay lies outside the
claimed interval for attempt 0. -/
theorem copy_trades_onclose_counterexample :
    (CopyTradesState.onclose sampleState).reconnectTimer = some 3000 ∧
    ¬ ((1000 : ℚ) * 2 ^ 0 ≤ 3000 ∧ (3000 : ℚ) ≤ 1000 * 2 ^ 0 + 1000) := by
  refine ⟨rfl, ?_⟩
  intro hc
  have := hc.2
  norm_num at this

/-- C8 amended: the positions socket (`useWebSocket`) obeys the claim — for
a close at attempt `n < maxReconnectAttempts` with `Math.random()` draw
`u ∈ [0,1)` the scheduled delay `2^n*1000 + u*1000` lies in
`[1000*2^n, 1000*2^n + 1000]`, and for `n ≥ maxReconnectAttempts` no
reconnection is scheduled until a manual `connect()`; the copy-trades socket
(`useCopyTrades`) instead schedules a fixed 3000 ms reconnection on every
close, with no attempt cap. -/
theorem wsOncloseDelay_bounds (n : Nat) (u : ℚ) (h0 : 0 ≤ u) (h1 : u < 1) :
    (∀ d : ℚ, wsOncloseDelay n u = some d →
      1000 * 2 ^ n ≤ d ∧ d ≤ 1000 * 2 ^ n + 1000) ∧
    (maxReconnectAttempts ≤ n → wsOncloseDelay n u = none) ∧
    ∀ s : CopyTradesState, (CopyTradesState.onclose s).reconnectTimer = some 3000 := by
  refine ⟨?_, ?_, fun s => rfl⟩
  · intro d hd
    unfold wsOncloseDelay at hd
    by_cases hn : n < maxReconnectAttempts
    · rw [if_pos hn] at hd
      have hd' : 2 ^ n * 1000 + u * 1000 = d := Option.some.inj hd
      have hp : (0 : ℚ) ≤ 2 ^ n := by positivity
      constructor
      · nlinarith
      · nlinarith
    · rw [if_neg hn] at hd
      cases hd
  · intro hn
    unfold wsOncloseDelay
    rw [if_neg (by omega)]

/-- C8 amended witness: the theorem applied to attempt 2 with random draw
`u = 1/2`. -/
theorem wsOncloseDelay_bounds_witness :
    (∀ d : ℚ, wsOncloseDelay 2 (1/2) = some d →
      1000 * 2 ^ 2 ≤ d ∧ d ≤ 1000 * 2 ^ 2 + 1000) ∧
    (maxReconnectAttempts ≤ 2 → wsOncloseDelay 2 (1/2) = none) ∧
    ∀ s : CopyTradesState, (CopyTradesState.onclose s).reconnectTimer = some 3000 :=
  wsOncloseDelay_bounds 2 (1/2) (by norm_num) (by norm_num)

/-- C10: `approveUsdcSpending` ignores its `amount` argument in both hook
variants — two calls with different amount strings from the same state have
identical effects — and any approval it issues is always
`approve(CLOB_CONTRACT, parseUnits("1000000", 6))`, the fixed 1,000,000 USDC
ceiling in 6-decimal base units, never the requested amount. -/
theorem approveUsdcSpending_ignores_amount (w : Bool) (a1 a2 : String)
    (sW : WagmiCopyTradesState) (s : CopyTradesState) :
    WagmiCopyTradesState.approveUsdcSpending w a1 sW =
      WagmiCopyTradesState.approveUsdcSpending w a2 sW ∧
    CopyTradesState.approveUsdcSpending w a1 s =
      CopyTradesState.approveUsdcSpending w a2 s ∧
    (WagmiCopyTradesState.approveUsdcSpending true a1 sW).approvalCalls =
      sW.approvalCalls ++
        [{ contract := USDC_CONTRACT, functionName := "approve",
           spender := CLOB_CONTRACT, amount := 1000000 * 10 ^ 6 }] :=
  ⟨rfl, rfl, rfl⟩
